import Mathlib

/-!
A shallow embedding of the AWS credential-bootstrap GitHub action
(`src/unnamed/part_000`).  Pure functions of the source are translated
directly; the effectful pieces (environment, file system, STS service,
GitHub OIDC token endpoint, credential broker, `@actions/core` output
commands) are made explicit: the environment and file system are passed
as values, network services are passed as response oracles, and the
output commands (`exportVariable`, `setSecret`, `setFailed`) are
collected into an effect trace returned by `run`.
-/

namespace AwsCreds

/-- JS truthiness of an optional string (`undefined` and the empty string are falsy);
models the source's `isDefined = i => !!i` applied to `string | undefined`. -/
def isDefined : Option String → Bool
  | none => false
  | some s => s != ""

/-- Source constant `DEFAULT_ROLE_DURATION_FOR_OIDC_ROLES = 3600`; the numeric
default is modelled by its decimal string since the value is only passed
through to the request. -/
def DEFAULT_ROLE_DURATION_FOR_OIDC_ROLES : String := "3600"

/-- Source constant `MAX_TAG_VALUE_LENGTH = 256`. -/
def MAX_TAG_VALUE_LENGTH : Nat := 256

/-- Source constant `SANITIZATION_CHARACTER = '_'`. -/
def SANITIZATION_CHARACTER : Char := '_'

/-- Source constant `ROLE_SESSION_NAME = 'GitHubActions'`. -/
def ROLE_SESSION_NAME : String := "GitHubActions"

/-- The Unicode general-category predicates used by the workflow-name
sanitizer's regex (`\p{L}`, `\p{Z}`, `\p{N}`).  The category tables are
external to the program, so they are parameters of the embedding. -/
structure CharClasses where
  pL : Char → Bool
  pZ : Char → Bool
  pN : Char → Bool

/-- The character class kept by the regex of `sanitizeGithubWorkflowName`,
`[^\p{L}\p{Z}\p{N}_:/=+.-@-]` (with the `u` flag): Unicode letters,
separators and numbers, the literals `_ : / = +`, the range `.`-`@`
(U+002E through U+0040), and `-`. -/
def allowedTagChar (cc : CharClasses) (c : Char) : Bool :=
  cc.pL c || cc.pZ c || cc.pN c ||
  c == '_' || c == ':' || c == '/' || c == '=' || c == '+' ||
  (decide ('.' ≤ c) && decide (c ≤ '@')) || c == '-'

/-- Source `sanitizeGithubActor`: replaces `[` and `]` with the sanitization
character (JS `actor.replace(/\[|\]/g, SANITIZATION_CHARACTER)`). -/
def sanitizeGithubActor (actor : String) : String :=
  String.mk (actor.data.map (fun c =>
    if c == '[' || c == ']' then SANITIZATION_CHARACTER else c))

/-- Source `sanitizeGithubWorkflowName`: replaces every character outside the
allowed tag class with the sanitization character, then truncates to
`MAX_TAG_VALUE_LENGTH` (JS `replace(..., '_')` then `slice(0, 256)`,
modelled on the sequence of Unicode scalar values). -/
def sanitizeGithubWorkflowName (cc : CharClasses) (name : String) : String :=
  let nameWithoutSpecialCharacters :=
    String.mk (name.data.map (fun c =>
      if allowedTagChar cc c then c else SANITIZATION_CHARACTER))
  let nameTruncated := String.mk (nameWithoutSpecialCharacters.data.take MAX_TAG_VALUE_LENGTH)
  nameTruncated

/-- The `process.env` entries the program reads.  `Option` models a
possibly-undefined variable. -/
structure Env where
  GITHUB_REPOSITORY : Option String := none
  GITHUB_WORKFLOW : Option String := none
  GITHUB_ACTION : Option String := none
  GITHUB_ACTOR : Option String := none
  GITHUB_SHA : Option String := none
  GITHUB_REF : Option String := none
  GITHUB_WORKSPACE : Option String := none
  AWS_SESSION_TOKEN : Option String := none

/-- An STS session tag `{ Key, Value }`. -/
structure SessionTag where
  Key : String
  Value : String
deriving DecidableEq

/-- The `roleSessionTags` array built in `assumeRole`, including the
conditional `Branch` tag pushed when `GITHUB_REF` is defined.  The `.getD`
defaults are unreachable when the environment assertion has passed. -/
def roleSessionTagsOf (cc : CharClasses) (env : Env) : List SessionTag :=
  let base : List SessionTag :=
    [⟨"GitHub", "Actions"⟩,
     ⟨"Repository", env.GITHUB_REPOSITORY.getD ("")⟩,
     ⟨"Workflow", sanitizeGithubWorkflowName cc (env.GITHUB_WORKFLOW.getD (""))⟩,
     ⟨"Action", env.GITHUB_ACTION.getD ("")⟩,
     ⟨"Actor", sanitizeGithubActor (env.GITHUB_ACTOR.getD (""))⟩,
     ⟨"Commit", env.GITHUB_SHA.getD ("")⟩]
  if isDefined env.GITHUB_REF then base ++ [⟨"Branch", env.GITHUB_REF.getD ("")⟩] else base

/-- One character of the region regex class `[a-z0-9-]`. -/
def regionCharOk (c : Char) : Bool :=
  (decide ('a' ≤ c) && decide (c ≤ 'z')) ||
  (decide ('0' ≤ c) && decide (c ≤ '9')) || c == '-'

/-- Model of `region.match(/^[a-z0-9-]+$/g)`: it succeeds exactly when the string is
nonempty and every character is in the class. -/
def regionMatches (s : String) : Bool :=
  s != "" && s.data.all regionCharOk

/-- Source `getRoleToAssume`: asserts `GITHUB_REPOSITORY` is defined and returns the
hard-coded role ARN template; a failed `assert` is an error unwinding to
the catch block of `run`. -/
def getRoleToAssume (env : Env) : Except String String :=
  if isDefined env.GITHUB_REPOSITORY then
    Except.ok ("arn:aws:iam::<SOME_ACCOUNT>:role/github-" ++ env.GITHUB_REPOSITORY.getD (""))
  else
    Except.error ("GITHUB_REPOSITORY must be defined.")

/-- The loosely-typed parameter bag destructured at the top of `assumeRole`.
Every field is `string | undefined` in the source. -/
structure AssumeRoleParams where
  sourceAccountId : Option String := none
  roleToAssume : Option String := none
  roleExternalId : Option String := none
  roleDurationSeconds : Option String := none
  roleSessionName : Option String := none
  region : Option String := none
  webIdentityTokenFile : Option String := none
  webIdentityToken : Option String := none

/-- The request object built by `assumeRole` (an
`AssumeRoleCommandInput | AssumeRoleWithWebIdentityCommandInput`).
`Tags := none` models the `delete assumeRoleRequest.Tags` state;
`WebIdentityToken := some _` models the `Object.assign` of the token. -/
structure AssumeRoleRequest where
  RoleArn : String
  RoleSessionName : String
  DurationSeconds : String
  Tags : Option (List SessionTag)
  ExternalId : Option String := none
  WebIdentityToken : Option String := none
deriving DecidableEq

/-- The `assumeFunction` variable: which STS command class the request is
sent with. -/
inductive AssumeFunction where
  | assumeRoleCommand
  | assumeRoleWithWebIdentityCommand
deriving DecidableEq

/-- The file system visible to `assumeRole`: `none` means
`fs.existsSync` is false; `some (.error m)` means the file exists but
`fs.promises.readFile` rejects with message `m`; `some (.ok content)` is a
successful read. -/
abbrev FileSystem := String → Option (Except String String)

/-- JS `String.prototype.startsWith`, modelled on the character sequence
(structurally recursive, unlike the byte-indexed library version). -/
def strStartsWith (s pre : String) : Bool := pre.data.isPrefixOf s.data

/-- Model of `path.isAbsolute` (posix). -/
def isAbsolutePath (p : String) : Bool := strStartsWith p ("/")

/-- Model of `path.join(workspace, file)`: separator insertion (no dot
normalization, which the program never relies on). -/
def joinPath (a b : String) : String := a ++ "/" ++ b

/-- The parameter assertion
`[roleToAssume, roleDurationSeconds, roleSessionName, region].every(isDefined)`. -/
def assumeRoleParamsDefined (p : AssumeRoleParams) : Bool :=
  [p.roleToAssume, p.roleDurationSeconds, p.roleSessionName, p.region].all isDefined

/-- The environment assertion
`[GITHUB_REPOSITORY, GITHUB_WORKFLOW, GITHUB_ACTION, GITHUB_ACTOR, GITHUB_SHA].every(isDefined)`. -/
def githubEnvDefined (env : Env) : Bool :=
  [env.GITHUB_REPOSITORY, env.GITHUB_WORKFLOW, env.GITHUB_ACTION,
   env.GITHUB_ACTOR, env.GITHUB_SHA].all isDefined

/-- The role-ARN resolution step of `assumeRole`: a value with the
`arn:aws` prefix passes through; otherwise a defined source account id is
asserted and the single-partition ARN is constructed. -/
def resolveRoleArn (p : AssumeRoleParams) : Except String String :=
  let roleToAssume := p.roleToAssume.getD ("")
  if strStartsWith roleToAssume ("arn:aws") then
    Except.ok roleToAssume
  else if isDefined p.sourceAccountId then
    Except.ok ("arn:aws:iam::" ++ p.sourceAccountId.getD ("") ++ ":role/" ++ roleToAssume)
  else
    Except.error ("Source Account ID is needed if the Role Name is provided and not the Role Arn.")

/-- Resolution of the web-identity token file path:
`path.isAbsolute(f) ? f : path.join(process.env.GITHUB_WORKSPACE, f)`.
With an undefined workspace `path.join` throws a `TypeError`, modelled as
an error value. -/
def resolveTokenFilePath (env : Env) (f : String) : Except String String :=
  if isAbsolutePath f then Except.ok f
  else
    match env.GITHUB_WORKSPACE with
    | some w => Except.ok (joinPath w f)
    | none => Except.error ("The path argument must be of type string. Received undefined")

/-- The pure part of `assumeRole` up to (and excluding) `sts.send`:
assertions, ARN resolution, session-tag construction, request-shape
selection and, in the token-file branch, the file existence check and
read.  Returns the command class and the request that would be sent.
In the token-file branch the source leaves `assumeFunction` as
`AssumeRoleCommand` (only the inline-token branch switches it), which the
embedding reproduces. -/
def assumeRoleRequestOf (cc : CharClasses) (env : Env) (fs : FileSystem)
    (p : AssumeRoleParams) : Except String (AssumeFunction × AssumeRoleRequest) :=
  if assumeRoleParamsDefined p = false then
    Except.error ("Missing required input when assuming a Role.")
  else if githubEnvDefined env = false then
    Except.error ("Missing required environment value. Are you running in GitHub Actions?")
  else
    match resolveRoleArn p with
    | Except.error e => Except.error e
    | Except.ok roleArn =>
      let req0 : AssumeRoleRequest :=
        { RoleArn := roleArn
          RoleSessionName := p.roleSessionName.getD ("")
          DurationSeconds := p.roleDurationSeconds.getD ("")
          Tags := some (roleSessionTagsOf cc env)
          ExternalId := if isDefined p.roleExternalId then p.roleExternalId else none
          WebIdentityToken := none }
      if isDefined p.webIdentityToken then
        Except.ok (AssumeFunction.assumeRoleWithWebIdentityCommand,
          { req0 with Tags := none, WebIdentityToken := p.webIdentityToken })
      else if isDefined p.webIdentityTokenFile then
        match resolveTokenFilePath env (p.webIdentityTokenFile.getD ("")) with
        | Except.error e => Except.error e
        | Except.ok rp =>
          match fs rp with
          | none => Except.error ("Web identity token file does not exist: " ++ rp)
          | some (Except.error m) =>
            Except.error ("Web identity token file could not be read: " ++ m)
          | some (Except.ok content) =>
            Except.ok (AssumeFunction.assumeRoleCommand,
              { req0 with Tags := none, WebIdentityToken := some content })
      else
        Except.ok (AssumeFunction.assumeRoleCommand, req0)

/-- The `Credentials` object of the STS response (`response.Credentials`);
each field may be absent in the wire response. -/
structure StsCreds where
  AccessKeyId : Option String := none
  SecretAccessKey : Option String := none
  SessionToken : Option String := none
deriving DecidableEq

/-- The `Credentials` record the program passes between stages; fields are
`string | undefined` because both STS and the broker response are
destructured without validation. -/
structure Credentials where
  accessKeyId : Option String := none
  secretAccessKey : Option String := none
  sessionToken : Option String := none
deriving DecidableEq

/-- Source `assumeRole`: builds the request and sends it through the STS oracle
`stsSend`, then destructures `Credentials` out of the response. -/
def assumeRole (cc : CharClasses) (env : Env) (fs : FileSystem)
    (stsSend : AssumeFunction → AssumeRoleRequest → Except String StsCreds)
    (p : AssumeRoleParams) : Except String Credentials :=
  match assumeRoleRequestOf cc env fs p with
  | Except.error e => Except.error e
  | Except.ok (fc, req) =>
    match stsSend fc req with
    | Except.error e => Except.error e
    | Except.ok c => Except.ok ⟨c.AccessKeyId, c.SecretAccessKey, c.SessionToken⟩

/-- Source `retryAndBackoff(fn, isRetryable, retries = 0, maxRetries = 12, base = 50)`.
The operation is indexed by the current `retries` value (each recursive
call evaluates `fn` once).  The trailing `fuel` argument makes the
self-recursion well-founded: `none` means the source recursion has not
finished within `fuel` attempts (with enough fuel, `none` models
divergence).  The jittered sleep `random(0,1) * 2^retries * base` is
modelled by counting sleeps (the second `Nat` of the result; the first is
the number of attempts).  As in the source, the sleep happens before the
`retries === maxRetries` exhaustion check. -/
def retryAndBackoff {ε α : Type} (fn : Nat → Except ε α) (isRetryable : Bool)
    (retries maxRetries base : Nat) : Nat → Option (Except ε α × Nat × Nat)
  | 0 => none
  | fuel + 1 =>
    match fn retries with
    | Except.ok a => some (Except.ok a, 1, 0)
    | Except.error e =>
      if isRetryable = false then some (Except.error e, 1, 0)
      else if retries + 1 = maxRetries then some (Except.error e, 1, 1)
      else
        match retryAndBackoff fn isRetryable (retries + 1) maxRetries base fuel with
        | none => none
        | some (res, attempts, sleeps) => some (res, attempts + 1, sleeps + 1)

/-- One `@actions/core` output command. -/
inductive Effect where
  | setSecret : Option String → Effect
  | exportVariable : String → Option String → Effect
deriving DecidableEq

/-- Source `exportCredentials`: masks and exports the credential values; a missing
session token clears a pre-existing `AWS_SESSION_TOKEN` with the empty
string. -/
def exportCredentials (env : Env) (c : Credentials) : List Effect :=
  [Effect.setSecret c.accessKeyId,
   Effect.exportVariable ("AWS_ACCESS_KEY_ID") c.accessKeyId,
   Effect.setSecret c.secretAccessKey,
   Effect.exportVariable ("AWS_SECRET_ACCESS_KEY") c.secretAccessKey]
  ++ (if isDefined c.sessionToken then
        [Effect.setSecret c.sessionToken,
         Effect.exportVariable ("AWS_SESSION_TOKEN") c.sessionToken]
      else if isDefined env.AWS_SESSION_TOKEN then
        [Effect.exportVariable ("AWS_SESSION_TOKEN") (some (""))]
      else [])

/-- Source `exportRegion`. -/
def exportRegion (region : String) : List Effect :=
  [Effect.exportVariable ("AWS_DEFAULT_REGION") (some region),
   Effect.exportVariable ("AWS_REGION") (some region)]

/-- The mutable HTTP request object produced by `createRequest` and edited
by `presignGetCallerIdentity`. -/
structure HttpRequest where
  hostname : String
  path : String
  method : String
  headers : List (String × String)
  query : List (String × String)
  body : String

/-- Query-string rendering used by `formatUrl`. -/
def renderQuery : List (String × String) → String
  | [] => ""
  | [(k, v)] => k ++ "=" ++ v
  | (k, v) :: rest => k ++ "=" ++ v ++ "&" ++ renderQuery rest

/-- Model of `formatUrl` of the AWS SDK: renders the request as an absolute URL
(the STS client is always https). -/
def formatUrl (req : HttpRequest) : String :=
  "https://" ++ req.hostname ++ req.path ++
    (if req.query.isEmpty then ("") else ("?") ++ renderQuery req.query)

/-- The `request.headers.host` value; `createRequest` always populates it. -/
def hostHeaderOf (req : HttpRequest) : String :=
  (req.headers.lookup ("host")).getD ("")

/-- The request-shape edits of `presignGetCallerIdentity`: force method GET,
keep only the host header, pin the query to the GetCallerIdentity action
and API version, empty the body. -/
def callerIdentityRequest (baseReq : HttpRequest) : HttpRequest :=
  { baseReq with
    method := "GET"
    headers := [("host", hostHeaderOf baseReq)]
    query := [("Action", "GetCallerIdentity"), ("Version", "2011-06-15")]
    body := "" }

/-- Model of the external `SignatureV4MultiRegion.presign` (an AWS SDK
dependency, not code of this repository): it hoists the signature into the
query string, here abstracted as appending an `X-Amz-Signature` parameter
whose value is the `signature` oracle. -/
def sigV4Presign (signature : String) (req : HttpRequest) : HttpRequest :=
  { req with query := req.query ++ [("X-Amz-Signature", signature)] }

/-- Source `presignGetCallerIdentity`: builds the forced-shape request from the
`createRequest` result `baseReq`, presigns it and formats it as a URL.
`region` and `roleCredentials` configure the signer in the source; in this
embedding their influence is absorbed into the abstract `signature`. -/
def presignGetCallerIdentity (region : String) (roleCredentials : Credentials)
    (signature : String) (baseReq : HttpRequest) : String :=
  formatUrl (sigV4Presign signature (callerIdentityRequest baseReq))

/-- The JSON body returned by the broker (`data`); each credential field may
be absent. -/
structure BrokerData where
  accessKeyId : Option String := none
  secretAccessKey : Option String := none
  sessionToken : Option String := none
deriving DecidableEq

/-- Source `getCredentials(url, accountName)`: posts `{ url, accountName }` to the
broker (the `post` oracle models `axios.post` at `LAMBDA_URL`) and
destructures the three credential fields from the response without any
validation. -/
def getCredentials (post : String → String → Except String BrokerData)
    (url accountName : String) : Except String Credentials :=
  match post url accountName with
  | Except.error e => Except.error e
  | Except.ok data => Except.ok ⟨data.accessKeyId, data.secretAccessKey, data.sessionToken⟩

/-- A network interaction of one run: the GitHub OIDC token fetch, an STS
request, or the broker exchange. -/
inductive NetCall where
  | getIDToken
  | sts
  | broker
deriving DecidableEq

/-- The action inputs read through `core.getInput` (empty string when the
input is absent). -/
structure RunInputs where
  region : String := ""
  audience : String := ""
  accountName : String := ""
  roleDurationSecondsInput : String := ""
  roleSessionNameInput : String := ""
  webIdentityTokenFile : String := ""

/-- Response oracles for the external services `run` talks to. -/
structure RunOracles where
  idToken : Except String String
  stsSend : Nat → AssumeFunction → AssumeRoleRequest → Except String StsCreds
  baseReq : HttpRequest
  signature : String
  broker : String → String → Except String BrokerData

/-- The observable outcome of one `run`: the ordered output commands, the
network calls made, the `core.setFailed` message of the catch block (if
any), and whether the run diverged inside the retry loop (unreachable for
the fixed `retries = 0 < maxRetries = 12` of `run`, but kept so the fueled
retry model stays honest). -/
structure RunResult where
  effects : List Effect
  netCalls : List NetCall
  failed : Option String
  diverged : Bool
deriving DecidableEq

/-- Source `run`: the top-level pipeline with its catch-all.  Required inputs are
checked by `core.getInput` in source order; `getRoleToAssume` precedes the
OIDC token fetch, which precedes the region validation; the region export
precedes role assumption; role assumption is wrapped in `retryAndBackoff`
with `isRetryable = true` and the defaults `retries = 0`,
`maxRetries = 12`, `base = 50` (fuel 12 suffices for these); presign and
broker exchange follow, and only a successful exchange reaches
`exportCredentials`. -/
def run (cc : CharClasses) (env : Env) (fs : FileSystem)
    (inp : RunInputs) (o : RunOracles) : RunResult :=
  if inp.region = "" then
    ⟨[], [], some ("Input required and not supplied: aws-region"), false⟩
  else if inp.accountName = "" then
    ⟨[], [], some ("Input required and not supplied: account-name"), false⟩
  else
    let roleDurationSeconds :=
      if inp.roleDurationSecondsInput = "" then DEFAULT_ROLE_DURATION_FOR_OIDC_ROLES
      else inp.roleDurationSecondsInput
    let roleSessionName :=
      if inp.roleSessionNameInput = "" then ROLE_SESSION_NAME
      else inp.roleSessionNameInput
    match getRoleToAssume env with
    | Except.error e => ⟨[], [], some e, false⟩
    | Except.ok roleToAssume =>
      match o.idToken with
      | Except.error e => ⟨[], [NetCall.getIDToken], some e, false⟩
      | Except.ok webIdentityToken =>
        if regionMatches inp.region then
          let regionEffects := exportRegion inp.region
          if roleToAssume = "" then
            ⟨regionEffects, [NetCall.getIDToken], none, false⟩
          else
            let p : AssumeRoleParams :=
              { region := some inp.region
                roleToAssume := some roleToAssume
                roleDurationSeconds := some roleDurationSeconds
                roleSessionName := some roleSessionName
                webIdentityTokenFile := some inp.webIdentityTokenFile
                webIdentityToken := some webIdentityToken }
            let stsPerAttempt := (assumeRoleRequestOf cc env fs p).toBool
            match retryAndBackoff (fun i => assumeRole cc env fs (o.stsSend i) p)
                true 0 12 50 12 with
            | none => ⟨regionEffects, [NetCall.getIDToken], none, true⟩
            | some (Except.error e, attempts, _) =>
              ⟨regionEffects,
               NetCall.getIDToken ::
                 (if stsPerAttempt then List.replicate attempts NetCall.sts else []),
               some e, false⟩
            | some (Except.ok initialCredentials, attempts, _) =>
              let stsTrace :=
                if stsPerAttempt then List.replicate attempts NetCall.sts else []
              let url := presignGetCallerIdentity inp.region initialCredentials
                o.signature o.baseReq
              match getCredentials o.broker url inp.accountName with
              | Except.error e =>
                ⟨regionEffects,
                 NetCall.getIDToken :: stsTrace ++ [NetCall.broker], some e, false⟩
              | Except.ok credentials =>
                ⟨regionEffects ++ exportCredentials env credentials,
                 NetCall.getIDToken :: stsTrace ++ [NetCall.broker], none, false⟩
        else
          ⟨[], [NetCall.getIDToken], some ("Region is not valid: " ++ inp.region), false⟩

/-- Is this effect an export of one of the three credential environment
entries? -/
def isCredVarExport : Effect → Bool
  | Effect.exportVariable k _ =>
    k == "AWS_ACCESS_KEY_ID" || k == "AWS_SECRET_ACCESS_KEY" || k == "AWS_SESSION_TOKEN"
  | _ => false

/-- Does the effect list export any credential environment entry? -/
def exportsCredentialVar (l : List Effect) : Bool := l.any isCredVarExport

/-! Concrete sample values used by witnesses and counterexamples. -/

/-- Sample Unicode category predicates (ASCII letters / space / digits). -/
def sampleCC : CharClasses :=
  ⟨fun c => c.isAlpha, fun c => c == ' ', fun c => c.isDigit⟩

/-- A fully populated sample environment. -/
def sampleEnv : Env :=
  { GITHUB_REPOSITORY := some ("org/repo")
    GITHUB_WORKFLOW := some ("CI Build [main]")
    GITHUB_ACTION := some ("run1")
    GITHUB_ACTOR := some ("dependabot[bot]")
    GITHUB_SHA := some ("abc123")
    GITHUB_REF := none
    GITHUB_WORKSPACE := some ("/workspace")
    AWS_SESSION_TOKEN := none }

/-- A sample file system with one readable and one unreadable file. -/
def sampleFs : FileSystem := fun p =>
  if p = "/workspace/token.txt" then some (Except.ok ("tok-from-file"))
  else if p = "/workspace/locked.txt" then some (Except.error ("EACCES"))
  else none

/-- A sample STS oracle that always succeeds. -/
def sampleStsOk : AssumeFunction → AssumeRoleRequest → Except String StsCreds :=
  fun _ _ => Except.ok ⟨some ("AKID"), some ("SECRET"), some ("SESSTOK")⟩

/-- Sample `createRequest` output. -/
def sampleBaseReq : HttpRequest :=
  { hostname := "sts.us-east-1.amazonaws.com"
    path := "/"
    method := "POST"
    headers := [("host", "sts.us-east-1.amazonaws.com"), ("content-type", "application/x-www-form-urlencoded")]
    query := []
    body := "Action=GetCallerIdentity" }

/-- Sample oracles for a run whose region check fails before AWS is reached. -/
def sampleOracles : RunOracles :=
  { idToken := Except.ok ("oidc-token")
    stsSend := fun _ => sampleStsOk
    baseReq := sampleBaseReq
    signature := "SIG"
    broker := fun _ _ => Except.ok ⟨some ("FAK"), some ("FSK"), some ("FST")⟩ }

/-- Sample inputs with an invalid (upper-case) region. -/
def sampleBadRegionInputs : RunInputs :=
  { region := "US-EAST-1", accountName := "prod" }

/-- Sample inputs with a valid region. -/
def sampleGoodInputs : RunInputs :=
  { region := "us-east-1", accountName := "prod" }

/-- Sample `assumeRole` parameters with an inline web-identity token and an
ARN-form role. -/
def c1params : AssumeRoleParams :=
  { roleToAssume := some ("arn:aws:iam::111:role/my-role")
    roleDurationSeconds := some ("3600")
    roleSessionName := some ("GitHubActions")
    region := some ("us-east-1")
    webIdentityToken := some ("tok") }

/-- The request `assumeRole` builds for `c1params` (extracted from the
request constructor so witnesses can name it). -/
def c1req : AssumeRoleRequest :=
  ((assumeRoleRequestOf sampleCC sampleEnv sampleFs c1params).toOption.map Prod.snd).getD
    ⟨"", "", "", none, none, none⟩

/-- Sample `assumeRole` parameters naming a token file that does not exist. -/
def c9params : AssumeRoleParams :=
  { roleToAssume := some ("arn:aws:iam::111:role/my-role")
    roleDurationSeconds := some ("3600")
    roleSessionName := some ("GitHubActions")
    region := some ("us-east-1")
    webIdentityTokenFile := some ("missing.txt") }

/-- A broker oracle that always fails. -/
def c3postErr : String → String → Except String BrokerData :=
  fun _ _ => Except.error ("broker down")

/-- Deterministic operation for the retry witnesses: fails twice, then
succeeds. -/
def c2fn : Nat → Except Nat Nat := fun i => if i < 2 then Except.error i else Except.ok 7

/-- Always-failing operation for the retry witnesses. -/
def c2g : Nat → Except Nat Nat := fun _ => Except.error 9

/-- Always-failing operation returning its attempt index as the error. -/
def c10fn : Nat → Except Nat Nat := fun i => Except.error i

/-- C7: for every input string, `sanitizeGithubWorkflowName` returns at most
256 characters, all of them in the allowed tag-value class; the output
length is exactly `min (input length) 256`, and pointwise each kept
position holds the input character when it is allowed and the sentinel
character when it is not — disallowed characters are replaced, never
dropped. -/
theorem C7_sanitize_workflow_name (cc : CharClasses) (name : String) :
    (sanitizeGithubWorkflowName cc name).length ≤ MAX_TAG_VALUE_LENGTH ∧
    (∀ c ∈ (sanitizeGithubWorkflowName cc name).data, allowedTagChar cc c = true) ∧
    (sanitizeGithubWorkflowName cc name).length = min name.length MAX_TAG_VALUE_LENGTH ∧
    (∀ i, ∀ hi : i < (sanitizeGithubWorkflowName cc name).data.length,
      ∀ hj : i < name.data.length,
      (sanitizeGithubWorkflowName cc name).data.get ⟨i, hi⟩ =
        if allowedTagChar cc (name.data.get ⟨i, hj⟩) = true then name.data.get ⟨i, hj⟩
        else SANITIZATION_CHARACTER) := by
  refine ⟨?_, ?_, ?_, ?_⟩
  · simp only [sanitizeGithubWorkflowName, String.length, String.data]
    rw [List.length_take]
    exact Nat.min_le_left _ _
  · intro c hc
    simp only [sanitizeGithubWorkflowName, String.data] at hc
    have hc' := List.mem_of_mem_take hc
    obtain ⟨a, _, rfl⟩ := List.mem_map.mp hc'
    by_cases h : allowedTagChar cc a = true
    · rw [if_pos h]; exact h
    · rw [if_neg h]
      simp [allowedTagChar, SANITIZATION_CHARACTER]
  · simp only [sanitizeGithubWorkflowName, String.length, String.data]
    rw [List.length_take, List.length_map, Nat.min_comm]
  · intro i hi hj
    simp only [sanitizeGithubWorkflowName, String.data] at hi ⊢
    simp [List.get_eq_getElem, List.getElem_take, List.getElem_map]

/-- Witness for C7 at a concrete workflow name containing brackets: the
disallowed character at index 9 (the opening bracket) is replaced by the
sentinel. -/
theorem C7_witness :
    (sanitizeGithubWorkflowName sampleCC ("CI Build [main]")).length
        ≤ MAX_TAG_VALUE_LENGTH ∧
    (sanitizeGithubWorkflowName sampleCC ("CI Build [main]")).length
        = min ("CI Build [main]" : String).length MAX_TAG_VALUE_LENGTH ∧
    (sanitizeGithubWorkflowName sampleCC ("CI Build [main]")).data.get
        ⟨9, by decide⟩ = SANITIZATION_CHARACTER :=
  ⟨(C7_sanitize_workflow_name sampleCC ("CI Build [main]")).1,
   (C7_sanitize_workflow_name sampleCC ("CI Build [main]")).2.2.1,
   ((C7_sanitize_workflow_name sampleCC ("CI Build [main]")).2.2.2 9
      (by decide) (by decide)).trans (by decide)⟩

/-- Helper: a run with `isRetryable = true` over an operation that fails for
the first `k` attempts (counting from the `retries` index) and then
succeeds returns the success value after `k + 1` attempts and `k` sleeps,
provided the exhaustion bound is not hit first. -/
theorem retry_succeeds {ε α : Type} (fn : Nat → Except ε α) (v : α) :
    ∀ (k retries maxRetries base fuel : Nat),
      (∀ i, i < k → ∃ e, fn (retries + i) = Except.error e) →
      fn (retries + k) = Except.ok v →
      retries + k < maxRetries → k < fuel →
      retryAndBackoff fn true retries maxRetries base fuel
        = some (Except.ok v, k + 1, k) := by
  intro k
  induction k with
  | zero =>
    intro retries maxRetries base fuel _ hok _ hfuel
    obtain ⟨f, rfl⟩ : ∃ f, fuel = f + 1 := ⟨fuel - 1, by omega⟩
    rw [Nat.add_zero] at hok
    simp [retryAndBackoff, hok]
  | succ k ih =>
    intro retries maxRetries base fuel hfail hok hlt hfuel
    obtain ⟨f, rfl⟩ : ∃ f, fuel = f + 1 := ⟨fuel - 1, by omega⟩
    obtain ⟨e, he⟩ := hfail 0 (Nat.succ_pos k)
    rw [Nat.add_zero] at he
    have hne : ¬(retries + 1 = maxRetries) := by omega
    have hrec := ih (retries + 1) maxRetries base f
      (fun i hi => by
        obtain ⟨e', he'⟩ := hfail (i + 1) (by omega)
        exact ⟨e', by rw [show retries + 1 + i = retries + (i + 1) by omega]; exact he'⟩)
      (by rw [show retries + 1 + k = retries + (k + 1) by omega]; exact hok)
      (by omega) (by omega)
    simp [retryAndBackoff, he, hne, hrec]

/-- Helper: with `isRetryable = false` the first error is surfaced with one
attempt and zero sleeps. -/
theorem retry_fail_fast {ε α : Type} (fn : Nat → Except ε α) (e : ε)
    (maxRetries base fuel : Nat) (h : fn 0 = Except.error e) :
    retryAndBackoff fn false 0 maxRetries base (fuel + 1)
      = some (Except.error e, 1, 0) := by
  simp [retryAndBackoff, h]

/-- C2: an operation failing on its first `N` invocations and succeeding on
invocation `N + 1`, run retryably with `maxRetries > N` (and enough fuel),
yields the success value; and with `isRetryable = false` any failing
operation surfaces its first error after a single attempt with zero
sleeps. -/
theorem C2_retry_and_backoff {ε α : Type} (fn g : Nat → Except ε α) (v : α) (e : ε)
    (N maxRetries base fuel : Nat)
    (hfail : ∀ i, i < N → ∃ e0, fn i = Except.error e0)
    (hok : fn N = Except.ok v)
    (hmax : N < maxRetries) (hfuel : N < fuel)
    (hg : g 0 = Except.error e) :
    retryAndBackoff fn true 0 maxRetries base fuel = some (Except.ok v, N + 1, N) ∧
    ∀ fuel0, retryAndBackoff g false 0 maxRetries base (fuel0 + 1)
        = some (Except.error e, 1, 0) := by
  constructor
  · have h := retry_succeeds fn v N 0 maxRetries base fuel
      (by simpa using hfail) (by simpa using hok) (by omega) hfuel
    simpa using h
  · intro fuel0
    exact retry_fail_fast g e maxRetries base fuel0 hg

/-- Witness for C2 at a concrete operation (fails twice, succeeds third). -/
theorem C2_witness :
    retryAndBackoff c2fn true 0 12 50 12 = some (Except.ok 7, 3, 2) ∧
    retryAndBackoff c2g false 0 12 50 1 = some (Except.error 9, 1, 0) := by
  have h := C2_retry_and_backoff c2fn c2g 7 9 2 12 50 12
    (fun i hi => ⟨i, by simp [c2fn, hi]⟩) rfl (by omega) (by omega) rfl
  exact ⟨h.1, h.2 0⟩

/-- Helper: an always-failing retryable operation started at `retries` with
`maxRetries = retries + k + 1` exhausts the bound: `k + 1` attempts,
`k + 1` sleeps (one after every failure, the last included), surfacing the
last error. -/
theorem retry_allfail {ε α : Type} (fn : Nat → Except ε α) (es : Nat → ε)
    (hfn : ∀ i, fn i = Except.error (es i)) :
    ∀ (k retries base fuel : Nat), k < fuel →
      retryAndBackoff fn true retries (retries + k + 1) base fuel
        = some (Except.error (es (retries + k)), k + 1, k + 1) := by
  intro k
  induction k with
  | zero =>
    intro retries base fuel hfuel
    obtain ⟨f, rfl⟩ : ∃ f, fuel = f + 1 := ⟨fuel - 1, by omega⟩
    simp [retryAndBackoff, hfn retries]
  | succ k ih =>
    intro retries base fuel hfuel
    obtain ⟨f, rfl⟩ : ∃ f, fuel = f + 1 := ⟨fuel - 1, by omega⟩
    have hne : ¬(retries + 1 = retries + (k + 1) + 1) := by omega
    have hrec := ih (retries + 1) base f (by omega)
    rw [show retries + 1 + k + 1 = retries + (k + 1) + 1 by omega] at hrec
    rw [show retries + 1 + k = retries + (k + 1) by omega] at hrec
    simp [retryAndBackoff, hfn retries, hne, hrec]

/-- Helper: when the initial retries value is at least `maxRetries`, the
strict-equality exhaustion check never fires, so an always-failing
retryable operation never finishes, whatever the fuel. -/
theorem retry_diverges {ε α : Type} (fn : Nat → Except ε α)
    (hfn : ∀ i, ∃ e, fn i = Except.error e) :
    ∀ (fuel retries maxRetries base : Nat), maxRetries ≤ retries →
      retryAndBackoff fn true retries maxRetries base fuel = none := by
  intro fuel
  induction fuel with
  | zero =>
    intro retries maxRetries base _
    simp [retryAndBackoff]
  | succ f ih =>
    intro retries maxRetries base hle
    obtain ⟨e, he⟩ := hfn retries
    have hne : ¬(retries + 1 = maxRetries) := by omega
    have hrec := ih (retries + 1) maxRetries base (by omega)
    simp [retryAndBackoff, he, hne, hrec]

/-- C10 (amended): for an always-failing retryable operation, the executor
terminates exactly when the initial retries value is below `maxRetries`:
with the defaults (`retries = 0`, `maxRetries = 12`) it makes exactly 12
attempts and 12 sleeps (one after every failure, the last included) and
surfaces the last error; with `maxRetries ≤ retries` the run never
finishes for any fuel. -/
theorem C10_retry_termination {ε α : Type} (fn : Nat → Except ε α) (es : Nat → ε)
    (base : Nat) (hfn : ∀ i, fn i = Except.error (es i)) :
    (∀ fuel, 12 ≤ fuel →
        retryAndBackoff fn true 0 12 base fuel
          = some (Except.error (es 11), 12, 12)) ∧
    (∀ retries maxRetries fuel, maxRetries ≤ retries →
        retryAndBackoff fn true retries maxRetries base fuel = none) := by
  constructor
  · intro fuel hf
    have h := retry_allfail fn es hfn 11 0 base fuel (by omega)
    rw [show (0 : Nat) + 11 + 1 = 12 by norm_num] at h
    rw [show (0 : Nat) + 11 = 11 by norm_num] at h
    exact h
  · intro retries maxRetries fuel hle
    exact retry_diverges fn (fun i => ⟨es i, hfn i⟩) fuel retries maxRetries base hle

/-- C10 counterexample: an operation that succeeds immediately makes the
executor terminate even though the initial retries value (5) is not below
`maxRetries` (3), so termination is not restricted to
`retries < maxRetries` for arbitrary operations. -/
theorem C10_counterexample :
    retryAndBackoff (fun _ => (Except.ok 1 : Except Nat Nat)) true 5 3 50 1
        = some (Except.ok 1, 1, 0) ∧ ¬(5 < 3) := by
  refine ⟨?_, by omega⟩
  simp [retryAndBackoff]

/-- Witness for C10 at a concrete always-failing operation. -/
theorem C10_witness :
    retryAndBackoff c10fn true 0 12 50 12 = some (Except.error 11, 12, 12) ∧
    retryAndBackoff c10fn true 5 3 50 7 = none := by
  have h := C10_retry_termination c10fn (fun i => i) 50 (fun _ => rfl)
  exact ⟨h.1 12 (by omega), h.2 5 3 7 (by omega)⟩

/-- C8: the request handed to the presigner has method GET, exactly the host
header, exactly the pinned GetCallerIdentity query, and an empty body; and
the function's single result is an absolute https URL that carries the
signature. -/
theorem C8_presign_request_shape (region : String) (creds : Credentials)
    (signature : String) (baseReq : HttpRequest) :
    (callerIdentityRequest baseReq).method = "GET" ∧
    (callerIdentityRequest baseReq).headers = [("host", hostHeaderOf baseReq)] ∧
    (callerIdentityRequest baseReq).query
        = [("Action", "GetCallerIdentity"), ("Version", "2011-06-15")] ∧
    (callerIdentityRequest baseReq).body = "" ∧
    (∃ rest, presignGetCallerIdentity region creds signature baseReq
        = "https://" ++ rest) ∧
    (∃ pre, presignGetCallerIdentity region creds signature baseReq
        = pre ++ signature) := by
  refine ⟨rfl, rfl, rfl, rfl, ?_, ?_⟩
  · refine ⟨baseReq.hostname ++ baseReq.path ++ "?" ++ renderQuery
      [("Action", "GetCallerIdentity"), ("Version", "2011-06-15"),
       ("X-Amz-Signature", signature)], ?_⟩
    simp [presignGetCallerIdentity, formatUrl, sigV4Presign, callerIdentityRequest,
      String.append_assoc]
  · refine ⟨"https://" ++ baseReq.hostname ++ baseReq.path ++
      "?Action=GetCallerIdentity&Version=2011-06-15&X-Amz-Signature=", ?_⟩
    simp [presignGetCallerIdentity, formatUrl, sigV4Presign, callerIdentityRequest,
      renderQuery, ← String.append_assoc]

/-- Helper: a truthy optional string is a `some`. -/
theorem isDefined_eq_some {o : Option String} (h : isDefined o = true) :
    ∃ s, o = some s := by
  cases o with
  | none => simp [isDefined] at h
  | some s => exact ⟨s, rfl⟩

/-- C1: whenever the request construction of `assumeRole` succeeds, the request
carries the web-identity token and no Tags field exactly when a token was
supplied (inline, or read from the token file); with neither, it carries
exactly the session tags built from the identity context and no token.
The two shapes are mutually exclusive. -/
theorem C1_request_tags_token_exclusive (cc : CharClasses) (env : Env)
    (fs : FileSystem) (p : AssumeRoleParams) (fc : AssumeFunction)
    (req : AssumeRoleRequest)
    (hok : assumeRoleRequestOf cc env fs p = Except.ok (fc, req)) :
    (isDefined p.webIdentityToken = true →
        req.Tags = none ∧ req.WebIdentityToken = p.webIdentityToken) ∧
    (isDefined p.webIdentityToken = false → isDefined p.webIdentityTokenFile = true →
        req.Tags = none ∧ ∃ rp content, fs rp = some (Except.ok content) ∧
          req.WebIdentityToken = some content) ∧
    (isDefined p.webIdentityToken = false → isDefined p.webIdentityTokenFile = false →
        req.Tags = some (roleSessionTagsOf cc env) ∧ req.WebIdentityToken = none) ∧
    ((req.Tags = none ∧ req.WebIdentityToken ≠ none) ∨
     (req.Tags ≠ none ∧ req.WebIdentityToken = none)) := by
  unfold assumeRoleRequestOf at hok
  by_cases h1 : assumeRoleParamsDefined p = false
  · rw [if_pos h1] at hok; exact absurd hok (by simp)
  rw [if_neg h1] at hok
  by_cases h2 : githubEnvDefined env = false
  · rw [if_pos h2] at hok; exact absurd hok (by simp)
  rw [if_neg h2] at hok
  cases harn : resolveRoleArn p with
  | error e => rw [harn] at hok; exact absurd hok (by simp)
  | ok roleArn =>
    rw [harn] at hok
    by_cases htok : isDefined p.webIdentityToken = true
    · simp only [htok, if_true] at hok
      simp only [Except.ok.injEq, Prod.mk.injEq] at hok
      obtain ⟨-, rfl⟩ := hok
      obtain ⟨s, hs⟩ := isDefined_eq_some htok
      refine ⟨fun _ => ⟨rfl, rfl⟩, ?_, ?_, Or.inl ⟨rfl, by simp [hs]⟩⟩
      · intro hf _; rw [hf] at htok; exact absurd htok (by simp)
      · intro hf _; rw [hf] at htok; exact absurd htok (by simp)
    · have htok' : isDefined p.webIdentityToken = false := by
        cases hv : isDefined p.webIdentityToken with
        | false => rfl
        | true => exact absurd hv htok
      simp only [htok', Bool.false_eq_true, if_false] at hok
      by_cases hfile : isDefined p.webIdentityTokenFile = true
      · simp only [hfile, if_true] at hok
        cases hrp : resolveTokenFilePath env (p.webIdentityTokenFile.getD ("")) with
        | error e => rw [hrp] at hok; exact absurd hok (by simp)
        | ok rp =>
          simp only [hrp] at hok
          cases hfs : fs rp with
          | none => simp only [hfs] at hok; exact absurd hok (by simp)
          | some rd =>
            cases rd with
            | error m => simp only [hfs] at hok; exact absurd hok (by simp)
            | ok content =>
              simp only [hfs] at hok
              simp only [Except.ok.injEq, Prod.mk.injEq] at hok
              obtain ⟨-, rfl⟩ := hok
              refine ⟨?_, fun _ _ => ⟨rfl, rp, content, hfs, rfl⟩, ?_,
                Or.inl ⟨rfl, by simp⟩⟩
              · intro ht; rw [ht] at htok'; exact absurd htok' (by simp)
              · intro _ hf; rw [hf] at hfile; exact absurd hfile (by simp)
      · have hfile' : isDefined p.webIdentityTokenFile = false := by
          cases hv : isDefined p.webIdentityTokenFile with
          | false => rfl
          | true => exact absurd hv hfile
        simp only [hfile', Bool.false_eq_true, if_false] at hok
        simp only [Except.ok.injEq, Prod.mk.injEq] at hok
        obtain ⟨-, rfl⟩ := hok
        refine ⟨?_, ?_, fun _ _ => ⟨rfl, rfl⟩, Or.inr ⟨by simp, rfl⟩⟩
        · intro ht; rw [ht] at htok'; exact absurd htok' (by simp)
        · intro _ hf; rw [hf] at hfile'; exact absurd hfile' (by simp)

/-- Witness for C1 at concrete parameters carrying an inline token. -/
theorem C1_witness :
    c1req.Tags = none ∧ c1req.WebIdentityToken = c1params.webIdentityToken :=
  (C1_request_tags_token_exclusive sampleCC sampleEnv sampleFs c1params
    AssumeFunction.assumeRoleWithWebIdentityCommand c1req (by rfl)).1 (by rfl)

/-- Helper: the RoleArn of any successfully constructed request is exactly
the output of the ARN-resolution step. -/
theorem requestOf_roleArn (cc : CharClasses) (env : Env) (fs : FileSystem)
    (p : AssumeRoleParams) (fc : AssumeFunction) (req : AssumeRoleRequest)
    (hok : assumeRoleRequestOf cc env fs p = Except.ok (fc, req)) :
    resolveRoleArn p = Except.ok req.RoleArn := by
  unfold assumeRoleRequestOf at hok
  by_cases h1 : assumeRoleParamsDefined p = false
  · rw [if_pos h1] at hok; exact absurd hok (by simp)
  rw [if_neg h1] at hok
  by_cases h2 : githubEnvDefined env = false
  · rw [if_pos h2] at hok; exact absurd hok (by simp)
  rw [if_neg h2] at hok
  cases harn : resolveRoleArn p with
  | error e => rw [harn] at hok; exact absurd hok (by simp)
  | ok roleArn =>
    simp only [harn] at hok
    by_cases htok : isDefined p.webIdentityToken = true
    · simp only [htok, if_true, Except.ok.injEq, Prod.mk.injEq] at hok
      obtain ⟨-, rfl⟩ := hok
      rfl
    · have htok' : isDefined p.webIdentityToken = false := by
        cases hv : isDefined p.webIdentityToken with
        | false => rfl
        | true => exact absurd hv htok
      simp only [htok', Bool.false_eq_true, if_false] at hok
      by_cases hfile : isDefined p.webIdentityTokenFile = true
      · simp only [hfile, if_true] at hok
        cases hrp : resolveTokenFilePath env (p.webIdentityTokenFile.getD ("")) with
        | error e => rw [hrp] at hok; exact absurd hok (by simp)
        | ok rp =>
          simp only [hrp] at hok
          cases hfs : fs rp with
          | none => simp only [hfs] at hok; exact absurd hok (by simp)
          | some rd =>
            cases rd with
            | error m => simp only [hfs] at hok; exact absurd hok (by simp)
            | ok content =>
              simp only [hfs, Except.ok.injEq, Prod.mk.injEq] at hok
              obtain ⟨-, rfl⟩ := hok
              rfl
      · have hfile' : isDefined p.webIdentityTokenFile = false := by
          cases hv : isDefined p.webIdentityTokenFile with
          | false => rfl
          | true => exact absurd hv hfile
        simp only [hfile', Bool.false_eq_true, if_false, Except.ok.injEq,
          Prod.mk.injEq] at hok
        obtain ⟨-, rfl⟩ := hok
        rfl

/-- C5: an ARN-form role identifier (the `arn:aws` prefix, as the source
tests it) is used unchanged as the request RoleArn; a bare name with a
defined source account id yields exactly `arn:aws:iam::<account>:role/<name>`;
a bare name without one fails with the assertion message. -/
theorem C5_role_arn_resolution (cc : CharClasses) (env : Env) (fs : FileSystem)
    (p : AssumeRoleParams) (r : String) (hr : p.roleToAssume = some r) :
    (strStartsWith r ("arn:aws") = true →
      ∀ fc req, assumeRoleRequestOf cc env fs p = Except.ok (fc, req) →
        req.RoleArn = r) ∧
    (∀ a, strStartsWith r ("arn:aws") = false → p.sourceAccountId = some a → a ≠ "" →
      ∀ fc req, assumeRoleRequestOf cc env fs p = Except.ok (fc, req) →
        req.RoleArn = "arn:aws:iam::" ++ a ++ ":role/" ++ r) ∧
    (strStartsWith r ("arn:aws") = false → isDefined p.sourceAccountId = false →
      assumeRoleParamsDefined p = true → githubEnvDefined env = true →
      assumeRoleRequestOf cc env fs p
        = Except.error ("Source Account ID is needed if the Role Name is provided and not the Role Arn.")) := by
  refine ⟨?_, ?_, ?_⟩
  · intro hsw fc req hok
    have harn := requestOf_roleArn cc env fs p fc req hok
    simp [resolveRoleArn, hr, hsw] at harn
    exact harn.symm
  · intro a hsw hsrc hane fc req hok
    have harn := requestOf_roleArn cc env fs p fc req hok
    simp [resolveRoleArn, hr, hsw, hsrc, isDefined, hane] at harn
    exact harn.symm
  · intro hsw hsrc hp he
    unfold assumeRoleRequestOf
    simp [hp, he, resolveRoleArn, hr, hsw, hsrc]

/-- Witness for C5 at concrete parameters with an ARN-form role. -/
theorem C5_witness : c1req.RoleArn = "arn:aws:iam::111:role/my-role" :=
  (C5_role_arn_resolution sampleCC sampleEnv sampleFs c1params
    "arn:aws:iam::111:role/my-role" rfl).1 (by decide)
    AssumeFunction.assumeRoleWithWebIdentityCommand c1req (by rfl)

/-- C9: with no inline token and a nonempty token-file path, `assumeRole`
resolves a relative path against the GITHUB_WORKSPACE root and fails —
independently of the STS oracle, hence before any STS request — naming the
resolved path when the file is absent, and with a read error when the file
exists but cannot be read. -/
theorem C9_token_file_errors (cc : CharClasses) (env : Env) (fs : FileSystem)
    (p : AssumeRoleParams) (f rp arn : String)
    (hp : assumeRoleParamsDefined p = true)
    (he : githubEnvDefined env = true)
    (harn : resolveRoleArn p = Except.ok arn)
    (htok : isDefined p.webIdentityToken = false)
    (hf : p.webIdentityTokenFile = some f) (hfne : f ≠ "")
    (hrp : resolveTokenFilePath env f = Except.ok rp) :
    (isAbsolutePath f = false → ∀ w, env.GITHUB_WORKSPACE = some w →
        rp = joinPath w f) ∧
    (fs rp = none → ∀ stsSend, assumeRole cc env fs stsSend p
        = Except.error ("Web identity token file does not exist: " ++ rp)) ∧
    (∀ m, fs rp = some (Except.error m) → ∀ stsSend, assumeRole cc env fs stsSend p
        = Except.error ("Web identity token file could not be read: " ++ m)) := by
  have hfd : isDefined (some f) = true := by
    simp [isDefined, hfne]
  refine ⟨?_, ?_, ?_⟩
  · intro habs w hw
    unfold resolveTokenFilePath at hrp
    simp [habs, hw] at hrp
    exact hrp.symm
  · intro hnone stsSend
    unfold assumeRole assumeRoleRequestOf
    simp [hp, he, harn, htok, hfd, hf, hrp, hnone]
  · intro m hm stsSend
    unfold assumeRole assumeRoleRequestOf
    simp [hp, he, harn, htok, hfd, hf, hrp, hm]

/-- Witness for C9: a relative missing token file resolved against the
workspace root. -/
theorem C9_witness :
    ("/workspace/missing.txt" : String) = joinPath ("/workspace") "missing.txt" ∧
    assumeRole sampleCC sampleEnv sampleFs sampleStsOk c9params
      = Except.error ("Web identity token file does not exist: " ++ "/workspace/missing.txt") := by
  have h := C9_token_file_errors sampleCC sampleEnv sampleFs c9params ("missing.txt")
    "/workspace/missing.txt" "arn:aws:iam::111:role/my-role" rfl rfl (by rfl) rfl rfl
    (by decide) (by rfl)
  exact ⟨h.1 (by decide) "/workspace" rfl, h.2.1 (by rfl) sampleStsOk⟩

/-- Helper: a trace of STS attempts contains no broker call. -/
theorem count_broker_replicate (n : Nat) :
    (List.replicate n NetCall.sts).count NetCall.broker = 0 := by
  induction n with
  | zero => rfl
  | succ n ih => simp [List.replicate_succ, List.count_cons, ih]

/-- C3 counterexample: an incomplete broker response (missing accessKeyId
and secretAccessKey) is returned as a success, not turned into an error. -/
theorem C3_counterexample :
    getCredentials (fun _ _ => Except.ok ⟨none, none, none⟩) "url" "acct"
      = Except.ok ⟨none, none, none⟩ := rfl

/-- C3 (amended): the broker exchange is never retried — any run makes at
most one broker call — and `getCredentials` fails exactly when the broker
call fails; the response is not validated, so the three credential fields
are returned as-is even when incomplete. -/
theorem C3_broker_exchange (cc : CharClasses) (env : Env) (fs : FileSystem)
    (inp : RunInputs) (o : RunOracles)
    (post : String → String → Except String BrokerData) (url acct : String) :
    (run cc env fs inp o).netCalls.count NetCall.broker ≤ 1 ∧
    (∀ e, post url acct = Except.error e →
        getCredentials post url acct = Except.error e) ∧
    (∀ data, post url acct = Except.ok data →
        getCredentials post url acct
          = Except.ok ⟨data.accessKeyId, data.secretAccessKey, data.sessionToken⟩) := by
  refine ⟨?_, ?_, ?_⟩
  · simp only [run]
    repeat' split
    all_goals simp [List.count_cons, List.count_append, count_broker_replicate]
  · intro e he
    simp [getCredentials, he]
  · intro data hd
    simp [getCredentials, hd]

/-- Witness for C3: a run trace with at most one broker call, and a failing
broker call surfaced unretried. -/
theorem C3_witness :
    (run sampleCC sampleEnv sampleFs sampleGoodInputs sampleOracles).netCalls.count
        NetCall.broker ≤ 1 ∧
    getCredentials c3postErr ("u") "a" = Except.error ("broker down") := by
  have h := C3_broker_exchange sampleCC sampleEnv sampleFs sampleGoodInputs
    sampleOracles c3postErr ("u") "a"
  exact ⟨h.1, h.2.1 ("broker down") rfl⟩

/-- C4: whenever `run` fails (its catch block reported the error's message
through the failure-signaling mechanism, modelled by the `failed` field),
no credential environment entry — AWS_ACCESS_KEY_ID,
AWS_SECRET_ACCESS_KEY, AWS_SESSION_TOKEN — was exported. -/
theorem C4_no_partial_export_on_failure (cc : CharClasses) (env : Env)
    (fs : FileSystem) (inp : RunInputs) (o : RunOracles) :
    (run cc env fs inp o).failed.isSome = true →
    exportsCredentialVar (run cc env fs inp o).effects = false := by
  simp only [run]
  repeat' split
  all_goals intro h
  all_goals simp_all [exportsCredentialVar, isCredVarExport, exportRegion]

/-- Witness for C4 at a concrete failing run (invalid region). -/
theorem C4_witness :
    (run sampleCC sampleEnv sampleFs sampleBadRegionInputs sampleOracles).failed.isSome
        = true ∧
    exportsCredentialVar
      (run sampleCC sampleEnv sampleFs sampleBadRegionInputs sampleOracles).effects
        = false :=
  ⟨by decide, C4_no_partial_export_on_failure sampleCC sampleEnv sampleFs
    sampleBadRegionInputs sampleOracles (by decide)⟩

/-- C6 counterexample: with the invalid region `US-EAST-1` the run fails
naming the region, but its trace already contains the GitHub OIDC token
fetch — a network call — so the failure does not precede every network
call. -/
theorem C6_counterexample :
    (run sampleCC sampleEnv sampleFs sampleBadRegionInputs sampleOracles).failed
        = some ("Region is not valid: US-EAST-1") ∧
    (run sampleCC sampleEnv sampleFs sampleBadRegionInputs sampleOracles).netCalls
        = [NetCall.getIDToken] := by
  constructor <;> decide

/-- C6 (amended): for every region failing the `[a-z0-9-]+` regex (with the
required inputs present, a defined repository and a fetched OIDC token),
`run` fails with a message naming the invalid region, having made no STS
or broker call and exported nothing — the OIDC token fetch alone precedes
the validation. -/
theorem C6_invalid_region (cc : CharClasses) (env : Env) (fs : FileSystem)
    (inp : RunInputs) (o : RunOracles) (tok : String)
    (hr : inp.region ≠ "") (ha : inp.accountName ≠ "")
    (hrepo : isDefined env.GITHUB_REPOSITORY = true)
    (htok : o.idToken = Except.ok tok)
    (hbad : regionMatches inp.region = false) :
    (run cc env fs inp o).failed = some ("Region is not valid: " ++ inp.region) ∧
    (run cc env fs inp o).netCalls = [NetCall.getIDToken] ∧
    (run cc env fs inp o).effects = [] := by
  unfold run
  simp [hr, ha, getRoleToAssume, hrepo, htok, hbad]

/-- Witness for C6 at the concrete invalid region `US-EAST-1`. -/
theorem C6_witness :
    (run sampleCC sampleEnv sampleFs sampleBadRegionInputs sampleOracles).failed
        = some ("Region is not valid: " ++ sampleBadRegionInputs.region) ∧
    (run sampleCC sampleEnv sampleFs sampleBadRegionInputs sampleOracles).netCalls
        = [NetCall.getIDToken] ∧
    (run sampleCC sampleEnv sampleFs sampleBadRegionInputs sampleOracles).effects
        = [] :=
  C6_invalid_region sampleCC sampleEnv sampleFs sampleBadRegionInputs sampleOracles
    "oidc-token" (by decide) (by decide) (by rfl) (by rfl) (by decide)

end AwsCreds
